import Mathlib

/-!
Verification of the job-helper-api service (src/main.py) against its
natural-language specification.

The embedding models:
* JSON values (`Json`) and a strict JSON reader (`jsonLoads`) standing for
  Python's `json.loads` (finite decimal numbers are represented exactly as
  rationals; the non-finite constants NaN/Infinity that `json.loads` also
  accepts are not representable and are out of scope for every claim);
* Python's `float(...)` coercion on JSON-decoded values (`pyFloat`) and
  Python 3's `round(...)` (round-half-to-even, `pyRound`);
* the model gateway `call_openai_for_json` (src/main.py lines 71-101),
  parameterised over the provider transport outcome;
* the post-gateway stages of the two endpoint handlers,
  `score_resume_fromData` (lines 138-158) and
  `generate_cover_letter_fromData` (lines 201-212), including the pydantic
  response-model validation performed when the response objects are built;
* the cover-letter prompt construction (lines 167-199).
-/

/-- A JSON value as produced by Python's `json.loads`: objects are
insertion-ordered string-keyed mappings (assoc lists), numbers are modelled
exactly as rationals. -/
inductive Json where
  | null : Json
  | bool (b : Bool) : Json
  | num (q : ℚ) : Json
  | str (s : String) : Json
  | arr (items : List Json) : Json
  | obj (kvs : List (String × Json)) : Json

/-- Returns `true` exactly on JSON objects (Python dicts). -/
def Json.isObj : Json → Bool
  | Json.obj _ => true
  | _ => false

/-- Skip JSON whitespace (space, tab, newline, carriage return), as
`json.loads` does between tokens. -/
def skipWs : List Char → List Char
  | [] => []
  | c :: cs =>
    if c = ' ' ∨ c = '\t' ∨ c = '\n' ∨ c = '\r' then skipWs cs else c :: cs

/-- Value of a decimal digit character, if it is one. -/
def digitVal (c : Char) : Option Nat :=
  if '0' ≤ c ∧ c ≤ '9' then some (c.toNat - 48) else none

/-- Value of a hexadecimal digit character, if it is one. -/
def hexVal (c : Char) : Option Nat :=
  if '0' ≤ c ∧ c ≤ '9' then some (c.toNat - 48)
  else if 'a' ≤ c ∧ c ≤ 'f' then some (c.toNat - 97 + 10)
  else if 'A' ≤ c ∧ c ≤ 'F' then some (c.toNat - 65 + 10)
  else none

/-- Take a maximal run of decimal digits from the front of the input. -/
def takeDigits : List Char → List Nat × List Char
  | [] => ([], [])
  | c :: cs =>
    match digitVal c with
    | some d =>
      let (ds, rest) := takeDigits cs
      (d :: ds, rest)
    | none => ([], c :: cs)

/-- Natural number denoted by a list of decimal digit values. -/
def natOfDigits (ds : List Nat) : Nat := ds.foldl (fun a d => a * 10 + d) 0

/-- Body of a JSON string literal (after the opening quote), handling the
escape sequences `json.loads` accepts.  Surrogate-pair combination is not
modelled (no claim involves it). -/
def parseStringBody : Nat → List Char → List Char → Option (String × List Char)
  | 0, _, _ => none
  | _, [], _ => none
  | fuel + 1, c :: cs, acc =>
    if c = '"' then some (String.mk acc.reverse, cs)
    else if c = '\\' then
      match cs with
      | [] => none
      | e :: cs' =>
        if e = '"' then parseStringBody fuel cs' ('"' :: acc)
        else if e = '\\' then parseStringBody fuel cs' ('\\' :: acc)
        else if e = '/' then parseStringBody fuel cs' ('/' :: acc)
        else if e = 'b' then parseStringBody fuel cs' ('\x08' :: acc)
        else if e = 'f' then parseStringBody fuel cs' ('\x0c' :: acc)
        else if e = 'n' then parseStringBody fuel cs' ('\n' :: acc)
        else if e = 'r' then parseStringBody fuel cs' ('\r' :: acc)
        else if e = 't' then parseStringBody fuel cs' ('\t' :: acc)
        else if e = 'u' then
          match cs' with
          | h1 :: h2 :: h3 :: h4 :: cs'' =>
            match hexVal h1, hexVal h2, hexVal h3, hexVal h4 with
            | some a, some b, some c2, some d =>
              parseStringBody fuel cs'' (Char.ofNat (((a * 16 + b) * 16 + c2) * 16 + d) :: acc)
            | _, _, _, _ => none
          | _ => none
        else none
    else if c.toNat < 32 then none
    else parseStringBody fuel cs (c :: acc)

/-- The exact rational `mant * 10 ^ ex` (decimal scientific value), built
with integer arithmetic only. -/
def decToRat (mant : Int) (ex : Int) : ℚ :=
  match ex with
  | Int.ofNat n => ((mant * 10 ^ n : Int) : ℚ)
  | Int.negSucc n => mkRat mant (10 ^ (n + 1))

/-- Exponent part of a JSON number (after `e`/`E`). -/
def parseExpPart (cs : List Char) : Option (Int × List Char) :=
  let (sgn, cs1) : Int × List Char :=
    match cs with
    | '+' :: r => (1, r)
    | '-' :: r => (-1, r)
    | _ => (1, cs)
  let (ds, cs2) := takeDigits cs1
  if ds = [] then none else some (sgn * (natOfDigits ds : Int), cs2)

/-- A JSON number token, per the JSON grammar that `json.loads` enforces
(`-? (0 | [1-9][0-9]*) (. [0-9]+)? ([eE][+-]?[0-9]+)?`), read exactly into a
rational. -/
def parseNumber (cs : List Char) : Option (Json × List Char) :=
  let (neg, cs1) :=
    match cs with
    | '-' :: r => (true, r)
    | _ => (false, cs)
  let (ids, cs2) := takeDigits cs1
  if ids = [] then none
  else if ids.length > 1 ∧ ids.headD 1 = 0 then none
  else
    let step2 : Option (List Nat × List Char) :=
      match cs2 with
      | '.' :: rest =>
        let (fds, cs3) := takeDigits rest
        if fds = [] then none else some (fds, cs3)
      | _ => some ([], cs2)
    match step2 with
    | none => none
    | some (fds, cs3) =>
      let step3 : Option (Int × List Char) :=
        match cs3 with
        | 'e' :: rest => parseExpPart rest
        | 'E' :: rest => parseExpPart rest
        | _ => some (0, cs3)
      match step3 with
      | none => none
      | some (ex, cs4) =>
        let mant : Int := (natOfDigits ids : Int) * 10 ^ fds.length + (natOfDigits fds : Int)
        let mant := if neg then -mant else mant
        some (Json.num (decToRat mant (ex - (fds.length : Int))), cs4)

/-- Update an insertion-ordered dict with a key/value pair, as Python dict
assignment does: an existing key keeps its position and gets the new value;
a new key is appended. -/
def updAssoc (kvs : List (String × Json)) (k : String) (v : Json) : List (String × Json) :=
  if kvs.any (fun p => p.1 == k) then
    kvs.map (fun p => if p.1 == k then (k, v) else p)
  else kvs ++ [(k, v)]

/-- Match a literal keyword tail (e.g. `ull` after the `n` of `null`). -/
def expectLit (lit : String) (cs : List Char) (v : Json) : Option (Json × List Char) :=
  if lit.data.isPrefixOf cs then some (v, cs.drop lit.length) else none

mutual

/-- One JSON value, fuel-bounded recursive descent mirroring `json.loads`. -/
def parseValue : Nat → List Char → Option (Json × List Char)
  | 0, _ => none
  | fuel + 1, cs =>
    match skipWs cs with
    | [] => none
    | c :: rest =>
      if c = 'n' then expectLit "ull" rest Json.null
      else if c = 't' then expectLit "rue" rest (Json.bool true)
      else if c = 'f' then expectLit "alse" rest (Json.bool false)
      else if c = '"' then
        match parseStringBody (rest.length + 1) rest [] with
        | some (s, cs') => some (Json.str s, cs')
        | none => none
      else if c = '[' then
        match skipWs rest with
        | ']' :: cs' => some (Json.arr [], cs')
        | _ => match parseArrayLoop fuel rest with
               | some (vs, cs') => some (Json.arr vs, cs')
               | none => none
      else if c = '\x7b' then
        match skipWs rest with
        | '\x7d' :: cs' => some (Json.obj [], cs')
        | _ => match parseObjLoop fuel rest [] with
               | some (kvs, cs') => some (Json.obj kvs, cs')
               | none => none
      else parseNumber (c :: rest)

/-- Comma-separated array elements up to the closing bracket. -/
def parseArrayLoop : Nat → List Char → Option (List Json × List Char)
  | 0, _ => none
  | fuel + 1, cs =>
    match parseValue fuel cs with
    | none => none
    | some (v, cs1) =>
      match skipWs cs1 with
      | ',' :: cs2 =>
        match parseArrayLoop fuel cs2 with
        | some (vs, cs3) => some (v :: vs, cs3)
        | none => none
      | ']' :: cs2 => some ([v], cs2)
      | _ => none

/-- Comma-separated object members up to the closing brace, accumulating an
insertion-ordered dict (later duplicate keys overwrite, as in Python). -/
def parseObjLoop : Nat → List Char → List (String × Json) →
    Option (List (String × Json) × List Char)
  | 0, _, _ => none
  | fuel + 1, cs, acc =>
    match skipWs cs with
    | '"' :: cs1 =>
      match parseStringBody (cs1.length + 1) cs1 [] with
      | none => none
      | some (k, cs2) =>
        match skipWs cs2 with
        | ':' :: cs3 =>
          match parseValue fuel cs3 with
          | none => none
          | some (v, cs4) =>
            match skipWs cs4 with
            | ',' :: cs5 => parseObjLoop fuel cs5 (updAssoc acc k v)
            | '\x7d' :: cs5 => some (updAssoc acc k v, cs5)
            | _ => none
        | _ => none
    | _ => none

end

/-- Python's `json.loads`: parse one JSON value, allow surrounding
whitespace, reject trailing garbage.  `none` models a raised
`json.JSONDecodeError`. -/
def jsonLoads (s : String) : Option Json :=
  match parseValue (s.length + 1) s.data with
  | some (v, rest) =>
    match skipWs rest with
    | [] => some v
    | _ => none
  | none => none

/-- An exception escaping the handler unguarded, i.e. one that is none of the
`HTTPException`s the source raises itself: Python's `ValueError` /
`TypeError` (from `float(...)`), `KeyError` (from `data[...]`), and
pydantic's `ValidationError` (from building a response model). -/
inductive Unguarded where
  | valueError : Unguarded
  | typeError : Unguarded
  | keyError : Unguarded
  | validationError : Unguarded
deriving DecidableEq

/-- Python's `float(str)` on finite decimal literals: optional surrounding
whitespace, optional sign, `[digits][.digits][(e|E)[sign]digits]` with at
least one mantissa digit.  Not modelled (out of scope for every claim):
`inf`/`nan` spellings (not representable in `ℚ`) and digit-group
underscores. -/
def parseFloatStr (s : String) : Option ℚ :=
  let cs := skipWs ((skipWs s.data.reverse).reverse)
  let (neg, cs1) :=
    match cs with
    | '+' :: r => (false, r)
    | '-' :: r => (true, r)
    | _ => (false, cs)
  let (ids, cs2) := takeDigits cs1
  let step2 : Option (List Nat × List Char) :=
    match cs2 with
    | '.' :: rest =>
      let (fds, cs3) := takeDigits rest
      some (fds, cs3)
    | _ => some ([], cs2)
  match step2 with
  | none => none
  | some (fds, cs3) =>
    if ids = [] ∧ fds = [] then none
    else
      let step3 : Option (Int × List Char) :=
        match cs3 with
        | 'e' :: rest => parseExpPart rest
        | 'E' :: rest => parseExpPart rest
        | _ => some (0, cs3)
      match step3 with
      | none => none
      | some (ex, cs4) =>
        match cs4 with
        | [] =>
          let mant : Int := (natOfDigits ids : Int) * 10 ^ fds.length + (natOfDigits fds : Int)
          let mant := if neg then -mant else mant
          some (decToRat mant (ex - (fds.length : Int)))
        | _ => none

/-- Python's `float(x)` applied to a JSON-decoded value: numbers pass
through, booleans coerce (`float(True) = 1.0`), strings are parsed as float
literals (`ValueError` if not one), everything else is a `TypeError`.
Float values are modelled as exact rationals (binary double rounding is not
modelled; no claim depends on a value where they differ). -/
def pyFloat : Json → Except Unguarded ℚ
  | Json.num q => .ok q
  | Json.bool b => .ok (if b then 1 else 0)
  | Json.str s =>
    match parseFloatStr s with
    | some q => .ok q
    | none => .error .valueError
  | Json.null => .error .typeError
  | Json.arr _ => .error .typeError
  | Json.obj _ => .error .typeError

/-- Python 3's `round(x)` on a float (no `ndigits`): nearest integer, ties
to even.  Implemented with integer arithmetic on the exact rational:
`f = ⌊q⌋`, remainder compared against 1/2. -/
def pyRound (q : ℚ) : Int :=
  let f : Int := q.num.fdiv q.den
  let r2 : Int := 2 * (q.num - f * q.den)
  if r2 < (q.den : Int) then f
  else if (q.den : Int) < r2 then f + 1
  else if f % 2 = 0 then f else f + 1

/-- A raised `fastapi.HTTPException` (status code and `detail` string). -/
structure HTTPError where
  status : Nat
  detail : String
deriving DecidableEq

/-- The provider response object, reduced to what the source looks at:
`response.output[0].content[0].text` when that structural path exists
(`extractedText = some …`), and the generic string form `str(response)`
used as the fallback when the extraction raises. -/
structure ProviderResponse where
  extractedText : Option String
  strForm : String

/-- The `text_output` of src/main.py lines 83-86: the extracted text, or
`str(response)` when extraction fails. -/
def extractText (r : ProviderResponse) : String :=
  r.extractedText.getD r.strForm

/-- Outcome of `client.responses.create`: a response object, or an exception
raised during the network call (carrying its message). -/
inductive ProviderResult where
  | success (r : ProviderResponse) : ProviderResult
  | failure (msg : String) : ProviderResult

/-- The gateway `call_openai_for_json` (src/main.py lines 71-101), as a function of the
provider transport outcome.  A `json.JSONDecodeError` from `json.loads` is
caught first and mapped to the fixed invalid-JSON message; any other
exception from the call is caught by the generic handler and mapped to a
message carrying the underlying error's text.  On success the parsed JSON
value is returned as-is (the source never checks that it is a dict). -/
def call_openai_for_json (pr : ProviderResult) : Except HTTPError Json :=
  match pr with
  | .failure msg => .error ⟨500, "Error while calling OpenAI: " ++ msg⟩
  | .success r =>
    match jsonLoads (extractText r) with
    | some v => .ok v
    | none => .error ⟨500, "OpenAI did not return valid JSON. Check the prompt or response."⟩

/-- Pydantic request model `JobInfo` (src/main.py lines 27-32). -/
structure JobInfo where
  company : String
  role_title : String
  location : Option String
  job_description : String
  job_url : Option String

/-- Pydantic request model `ResumeInfo` (src/main.py lines 35-37). -/
structure ResumeInfo where
  name : String
  text : String

/-- Pydantic request model `ExtrasInfo` (src/main.py lines 40-43): every
field is `Optional` with a default, so an omitted field gets the default
while an explicit `null` sets the field to `None`. -/
structure ExtrasInfo where
  tone : Option String
  length : Option String
  focus_points : Option (List String)

/-- The all-defaults instance `ExtrasInfo()`. -/
def ExtrasInfo.default : ExtrasInfo :=
  ⟨some "professional but conversational", some "3 paragraphs", none⟩

/-- Pydantic request model `GenerateCLRequest` (src/main.py lines 58-61). -/
structure GenerateCLRequest where
  job : JobInfo
  resume : ResumeInfo
  extras : Option ExtrasInfo

/-- Pydantic response model `ScoreResumeResponse` (src/main.py lines 51-55). -/
structure ScoreResumeResponse where
  match_score : Int
  top_keywords : List String
  missing_or_weak_keywords : List String
  suggested_resume_edits : String
deriving DecidableEq

/-- Pydantic response model `GenerateCLResponse` (src/main.py lines 64-66). -/
structure GenerateCLResponse where
  cover_letter_text : String
  summary : Option String
deriving DecidableEq

/-- Python `data[k]` / `k in data` lookup on a JSON object (dict keys are
unique after `json.loads`, so first match suffices). -/
def jlookup (kvs : List (String × Json)) (k : String) : Option Json :=
  (kvs.find? (fun p => p.1 == k)).map Prod.snd

/-- Pydantic validation of a `List[str]` response field: a JSON array of
strings passes, anything else (in particular `null`) raises
`ValidationError`.  (Version-dependent scalar coercions, e.g. int-to-str,
are not modelled; no claim depends on them.) -/
def validateStrList (v : Json) : Option (List String) :=
  match v with
  | Json.arr items => strsOfItems items
  | _ => none
where
  strsOfItems : List Json → Option (List String)
    | [] => some []
    | Json.str s :: rest => (strsOfItems rest).map (s :: ·)
    | _ => none

/-- Pydantic validation of a required `str` response field: a JSON string
passes, anything else (in particular `null`) raises `ValidationError`. -/
def validateStr (v : Json) : Option String :=
  match v with
  | Json.str s => some s
  | _ => none

/-- Pydantic validation of an `Optional[str]` response field: `null` becomes
`None`, a string passes through, anything else raises `ValidationError`. -/
def validateOptStr (v : Json) : Option (Option String) :=
  match v with
  | Json.null => some none
  | Json.str s => some (some s)
  | _ => none

/-- The required-keys list of src/main.py lines 138-143, in source order. -/
def requiredKeys : List String :=
  ["match_score", "top_keywords", "missing_or_weak_keywords", "suggested_resume_edits"]

/-- The `for key in required_keys: if key not in data: raise …` loop
(src/main.py lines 144-149) stops at the first required key absent from
`data`; this computes that key. -/
def checkRequiredKeys (data : List (String × Json)) : Option String :=
  requiredKeys.find? (fun k => (jlookup data k).isNone)

/-- Outcome of the score-resume handler stage after the gateway returned a
mapping: a response, a raised `HTTPException`, or an unguarded Python
exception. -/
inductive ScoreOutcome where
  | ok (r : ScoreResumeResponse) : ScoreOutcome
  | httpError (status : Nat) (detail : String) : ScoreOutcome
  | raised (e : Unguarded) : ScoreOutcome
deriving DecidableEq

/-- The post-gateway stage of `score_resume` (src/main.py lines 138-158) on
the mapping `data` returned by the gateway: required-key check (error names
the first missing key), `int(round(float(data["match_score"])))`, then
construction of `ScoreResumeResponse` with `.get`-defaults (dead for
present keys) and pydantic field validation. -/
def score_resume_fromData (data : List (String × Json)) : ScoreOutcome :=
  match checkRequiredKeys data with
  | some key => .httpError 500 ("Missing key in OpenAI response: " ++ key)
  | none =>
    match jlookup data "match_score" with
    | none => .raised .keyError
    | some v =>
      match pyFloat v with
      | .error e => .raised e
      | .ok q =>
        let match_score := pyRound q
        match validateStrList ((jlookup data "top_keywords").getD (Json.arr [])),
              validateStrList ((jlookup data "missing_or_weak_keywords").getD (Json.arr [])),
              validateStr ((jlookup data "suggested_resume_edits").getD (Json.str "")) with
        | some tk, some mw, some sre => .ok ⟨match_score, tk, mw, sre⟩
        | _, _, _ => .raised .validationError

/-- Outcome of the cover-letter handler stage after the gateway returned a
mapping. -/
inductive CLOutcome where
  | ok (r : GenerateCLResponse) : CLOutcome
  | httpError (status : Nat) (detail : String) : CLOutcome
  | raised (e : Unguarded) : CLOutcome
deriving DecidableEq

/-- The post-gateway stage of `generate_cover_letter` (src/main.py lines
201-212) on the mapping `data`: presence check for `cover_letter_text`,
then construction of `GenerateCLResponse` from
`data.get("cover_letter_text", "")` and `data.get("summary")` with pydantic
field validation. -/
def generate_cover_letter_fromData (data : List (String × Json)) : CLOutcome :=
  match jlookup data "cover_letter_text" with
  | none => .httpError 500 "Missing 'cover_letter_text' in OpenAI response"
  | some v =>
    match validateStr v with
    | none => .raised .validationError
    | some text =>
      match jlookup data "summary" with
      | none => .ok ⟨text, none⟩
      | some sv =>
        match validateOptStr sv with
        | none => .raised .validationError
        | some os => .ok ⟨text, os⟩

/-- Python f-string rendering of an `Optional[str]` value: `None` renders as
the four characters `None`. -/
def pyStrOpt : Option String → String
  | some s => s
  | none => "None"

/-- Model of `job.location or "N/A"` (src/main.py line 181): Python `or` falls back
when the left side is falsy, i.e. for `None` and for the empty string. -/
def locationOrNA : Option String → String
  | some s => if s = "" then "N/A" else s
  | none => "N/A"

/-- Model of `payload.extras or ExtrasInfo()` (src/main.py line 167): a pydantic
model instance is always truthy, so only an absent `extras` is replaced by
the default instance. -/
def effectiveExtras (e : Option ExtrasInfo) : ExtrasInfo :=
  e.getD ExtrasInfo.default

/-- The variable `focus_points_text` (src/main.py lines 169-171): non-empty list (the
only truthy case of `Optional[List[str]]`) renders as
`"Focus on these points: " + ", ".join(...)`; `None` and `[]` give `""`. -/
def focusPointsText (extras : ExtrasInfo) : String :=
  match extras.focus_points with
  | some (p :: ps) => "Focus on these points: " ++ String.intercalate ", " (p :: ps)
  | _ => ""

/-- Literal segments of the cover-letter prompt f-string (src/main.py lines
173-199), split at the interpolation points (and, for proof convenience,
between the `guidelines:` line and the `- Tone: ` line). -/
def clP1 : String :=
  "\nYou are a job application assistant that writes tailored cover letters.\n\nJob description:\n"

/-- Cover-letter prompt segment between the job description and the company. -/
def clP2 : String := "\n\nCompany: "

/-- Cover-letter prompt segment between the company and the role title. -/
def clP3 : String := "\nRole title: "

/-- Cover-letter prompt segment between the role title and the location. -/
def clP4 : String := "\nLocation: "

/-- Cover-letter prompt segment between the location and the resume text. -/
def clP5 : String := "\n\nCandidate resume:\n"

/-- Cover-letter prompt segment after the resume text (guidelines header). -/
def clP6 : String := "\n\nWrite a cover letter with the following guidelines:"

/-- Cover-letter prompt segment introducing the tone value. -/
def clP7 : String := "\n- Tone: "

/-- Cover-letter prompt segment introducing the length value. -/
def clP8 : String := "\n- Length: "

/-- Cover-letter prompt segment introducing the focus-points clause. -/
def clP9 : String := "\n- "

/-- Cover-letter prompt trailing segment after the focus-points clause
(the `{{`/`}}` of the f-string render as literal braces). -/
def clP10 : String :=
  "\n\nThe cover letter should highlight the candidate's most relevant experience and skills for this specific role and company. It should sound natural and professional.\n\nRespond in valid JSON only, with this structure:\n\n\x7b\n  \"cover_letter_text\": \"full cover letter text here\",\n  \"summary\": \"one sentence summary of why this candidate is a strong fit\"\n\x7d\n"

/-- The cover-letter prompt f-string (src/main.py lines 173-199) with the
interpolated values substituted. -/
def coverLetterPrompt (job : JobInfo) (resume : ResumeInfo) (extras : ExtrasInfo) : String :=
  clP1 ++ job.job_description ++ clP2 ++ job.company ++ clP3 ++ job.role_title ++
    clP4 ++ locationOrNA job.location ++ clP5 ++ resume.text ++ clP6 ++
    clP7 ++ pyStrOpt extras.tone ++ clP8 ++ pyStrOpt extras.length ++
    clP9 ++ focusPointsText extras ++ clP10

/-- The prompt built by `generate_cover_letter` (src/main.py lines 164-199)
for a given request payload. -/
def generate_cover_letter_prompt (payload : GenerateCLRequest) : String :=
  coverLetterPrompt payload.job payload.resume (effectiveExtras payload.extras)

/-- Pydantic parsing of one `Optional[str]` field with a default: an absent
key yields the default, an explicit `null` yields `None`, a string yields
itself, any other value fails validation.  (Version-dependent scalar
coercions are not modelled; no claim depends on them.) -/
def parseOptStrField (kvs : List (String × Json)) (key : String) (dflt : Option String) :
    Option (Option String) :=
  match jlookup kvs key with
  | none => some dflt
  | some Json.null => some none
  | some (Json.str s) => some (some s)
  | some _ => none

/-- Pydantic parsing of the `Optional[List[str]]` field `focus_points`
(default `None`). -/
def parseFocusField (kvs : List (String × Json)) : Option (Option (List String)) :=
  match jlookup kvs "focus_points" with
  | none => some none
  | some Json.null => some none
  | some (Json.arr items) => (validateStrList (Json.arr items)).map some
  | some _ => none

/-- Pydantic construction of an `ExtrasInfo` from the JSON object supplied
for the request's `extras` field: defaults apply to absent keys only. -/
def extrasInfoFromJson (kvs : List (String × Json)) : Option ExtrasInfo := do
  let tone ← parseOptStrField kvs "tone" (some "professional but conversational")
  let length ← parseOptStrField kvs "length" (some "3 paragraphs")
  let fp ← parseFocusField kvs
  pure ⟨tone, length, fp⟩

/-- Predicate: `pat` occurs contiguously inside `s`. -/
def strContains (s pat : String) : Prop :=
  ∃ a b : String, s = a ++ (pat ++ b)

/-- Returns `true` exactly on the `HTTPException` outcome of the score handler. -/
def ScoreOutcome.isHttpError : ScoreOutcome → Bool
  | ScoreOutcome.httpError _ _ => true
  | _ => false

/-!
Sanity evaluations of the model on concrete inputs (ground truth obtained
from the semantics of the corresponding Python constructs).
-/

example : jsonLoads "3" = some (Json.num 3) := by rfl
example : jsonLoads "not json" = none := by rfl
example : jsonLoads " \x7b\"a\": [1, \"x\"], \"b\": null\x7d " =
    some (Json.obj [("a", Json.arr [Json.num 1, Json.str "x"]), ("b", Json.null)]) := by rfl
example : jsonLoads "82.6" = some (Json.num (mkRat 413 5)) := by rfl
example : jsonLoads "-1.5e2" = some (Json.num (-150)) := by rfl
example : pyRound (mkRat 413 5) = 83 := by rfl
example : pyRound (mkRat 5 2) = 2 := by rfl
example : pyRound (mkRat (-5) 2) = -2 := by rfl
example : pyRound 250 = 250 := by rfl
example : pyRound (mkRat 2001 2) = 1000 := by rfl
example : parseFloatStr "high" = none := by rfl
example : parseFloatStr " 82.6 " = some (mkRat 413 5) := by rfl
example : parseFloatStr "-2e1" = some (-20) := by rfl
example : parseFloatStr ".5" = some (mkRat 1 2) := by rfl
example : parseFloatStr "" = none := by rfl
example :
    score_resume_fromData [("match_score", Json.num 250),
      ("top_keywords", Json.arr [Json.str "Python"]),
      ("missing_or_weak_keywords", Json.arr []),
      ("suggested_resume_edits", Json.str "edits")] =
    .ok ⟨250, ["Python"], [], "edits"⟩ := by rfl
example : score_resume_fromData [] =
    .httpError 500 "Missing key in OpenAI response: match_score" := by rfl
example :
    score_resume_fromData [("match_score", Json.str "high"),
      ("top_keywords", Json.arr []), ("missing_or_weak_keywords", Json.arr []),
      ("suggested_resume_edits", Json.str "")] = .raised .valueError := by rfl
example :
    score_resume_fromData [("match_score", Json.num 50),
      ("top_keywords", Json.null), ("missing_or_weak_keywords", Json.arr []),
      ("suggested_resume_edits", Json.str "")] = .raised .validationError := by rfl
example : generate_cover_letter_fromData [("cover_letter_text", Json.str "hi")] =
    .ok ⟨"hi", none⟩ := by rfl
example : generate_cover_letter_fromData [("summary", Json.str "s")] =
    .httpError 500 "Missing 'cover_letter_text' in OpenAI response" := by rfl
example : extrasInfoFromJson [] = some ExtrasInfo.default := by rfl
example : extrasInfoFromJson [("tone", Json.null)] =
    some ⟨none, some "3 paragraphs", none⟩ := by rfl
example : focusPointsText ⟨none, none, some ["a", "b", "c"]⟩ =
    "Focus on these points: a, b, c" := by rfl

lemma score_resume_stops_at_missing (data : List (String × Json)) (k : String)
    (h : checkRequiredKeys data = some k) :
    score_resume_fromData data = .httpError 500 ("Missing key in OpenAI response: " ++ k) := by
  unfold score_resume_fromData
  rw [h]

/-- C1: a score-resume gateway mapping lacking at least one of the four
required keys makes the handler fail with HTTP 500 whose detail names the
first missing key in the fixed order of `requiredKeys`; in particular, when
exactly one key is missing the error names exactly that key. -/
theorem claim_C1 (data : List (String × Json)) :
    (∀ k, checkRequiredKeys data = some k →
      score_resume_fromData data = .httpError 500 ("Missing key in OpenAI response: " ++ k)) ∧
    ((∃ k ∈ requiredKeys, jlookup data k = none) → (checkRequiredKeys data).isSome) ∧
    (∀ k, k ∈ requiredKeys → jlookup data k = none →
      (∀ k', k' ∈ requiredKeys → k' ≠ k → (jlookup data k').isSome) →
      score_resume_fromData data = .httpError 500 ("Missing key in OpenAI response: " ++ k)) := by
  refine ⟨fun k h => score_resume_stops_at_missing data k h, ?_, ?_⟩
  · rintro ⟨k, hk, hnone⟩
    rw [checkRequiredKeys, List.find?_isSome]
    exact ⟨k, hk, by simp [hnone]⟩
  · intro k hk hnone hothers
    have hck : checkRequiredKeys data = some k := by
      simp only [requiredKeys, List.mem_cons, List.not_mem_nil, or_false] at hk
      rcases hk with rfl | rfl | rfl | rfl
      · simp [checkRequiredKeys, requiredKeys, List.find?, hnone]
      · obtain ⟨v1, hv1⟩ := Option.isSome_iff_exists.mp
          (hothers "match_score" (by simp [requiredKeys]) (by decide))
        simp [checkRequiredKeys, requiredKeys, List.find?, hv1, hnone]
      · obtain ⟨v1, hv1⟩ := Option.isSome_iff_exists.mp
          (hothers "match_score" (by simp [requiredKeys]) (by decide))
        obtain ⟨v2, hv2⟩ := Option.isSome_iff_exists.mp
          (hothers "top_keywords" (by simp [requiredKeys]) (by decide))
        simp [checkRequiredKeys, requiredKeys, List.find?, hv1, hv2, hnone]
      · obtain ⟨v1, hv1⟩ := Option.isSome_iff_exists.mp
          (hothers "match_score" (by simp [requiredKeys]) (by decide))
        obtain ⟨v2, hv2⟩ := Option.isSome_iff_exists.mp
          (hothers "top_keywords" (by simp [requiredKeys]) (by decide))
        obtain ⟨v3, hv3⟩ := Option.isSome_iff_exists.mp
          (hothers "missing_or_weak_keywords" (by simp [requiredKeys]) (by decide))
        simp [checkRequiredKeys, requiredKeys, List.find?, hv1, hv2, hv3, hnone]
    exact score_resume_stops_at_missing data k hck

theorem claim_C1_witness :
    score_resume_fromData [] =
      .httpError 500 "Missing key in OpenAI response: match_score" ∧
    score_resume_fromData [("match_score", Json.num 1), ("top_keywords", Json.arr []),
        ("suggested_resume_edits", Json.str "")] =
      .httpError 500 "Missing key in OpenAI response: missing_or_weak_keywords" := by
  constructor
  · exact (claim_C1 []).1 "match_score" rfl
  · exact (claim_C1 _).2.2 "missing_or_weak_keywords" (by decide) rfl (by decide)

lemma validateStrList_map_str (l : List String) :
    validateStrList (Json.arr (l.map Json.str)) = some l := by
  induction l with
  | nil => rfl
  | cons a t ih =>
    simp only [validateStrList, List.map_cons, validateStrList.strsOfItems] at ih ⊢
    rw [ih]
    rfl

/-- C2: on a gateway mapping with all four required keys, a `match_score`
value that `float(...)` accepts (numbers and numeric strings), and
string-list keyword fields, the handler returns `round(float(value))` as
the score — unclamped — and the two keyword lists verbatim, in order. -/
theorem claim_C2 (data : List (String × Json)) (v : Json) (q : ℚ)
    (l1 l2 : List String) (s : String)
    (hms : jlookup data "match_score" = some v)
    (hq : pyFloat v = .ok q)
    (htk : jlookup data "top_keywords" = some (Json.arr (l1.map Json.str)))
    (hmw : jlookup data "missing_or_weak_keywords" = some (Json.arr (l2.map Json.str)))
    (hsre : jlookup data "suggested_resume_edits" = some (Json.str s)) :
    score_resume_fromData data = .ok ⟨pyRound q, l1, l2, s⟩ := by
  have hck : checkRequiredKeys data = none := by
    simp [checkRequiredKeys, requiredKeys, List.find?, hms, htk, hmw, hsre]
  simp [score_resume_fromData, hck, hms, hq, htk, hmw, hsre,
    validateStrList_map_str, validateStr]

theorem claim_C2_witness :
    score_resume_fromData [("match_score", Json.num 250),
        ("top_keywords", Json.arr [Json.str "Python", Json.str "SQL"]),
        ("missing_or_weak_keywords", Json.arr [Json.str "SQL"]),
        ("suggested_resume_edits", Json.str "Add SQL examples.")] =
      .ok ⟨250, ["Python", "SQL"], ["SQL"], "Add SQL examples."⟩ ∧ (100 : Int) < 250 := by
  constructor
  · have h := claim_C2 [("match_score", Json.num 250),
        ("top_keywords", Json.arr [Json.str "Python", Json.str "SQL"]),
        ("missing_or_weak_keywords", Json.arr [Json.str "SQL"]),
        ("suggested_resume_edits", Json.str "Add SQL examples.")]
      (Json.num 250) 250 ["Python", "SQL"] ["SQL"]
      "Add SQL examples." rfl rfl rfl rfl rfl
    rw [show pyRound (250 : ℚ) = 250 from rfl] at h
    exact h
  · decide

/-- C7 as written is false: a present-but-`null` list value is not
defaulted to an empty list — `dict.get`'s default only applies to absent
keys — so the response-model construction raises.  At this concrete mapping
the handler raises a pydantic `ValidationError` instead of returning the
claim's predicted null-as-empty response. -/
theorem claim_C7_counterexample :
    score_resume_fromData [("match_score", Json.num 50), ("top_keywords", Json.null),
        ("missing_or_weak_keywords", Json.arr []), ("suggested_resume_edits", Json.str "x")] =
      .raised .validationError ∧
    score_resume_fromData [("match_score", Json.num 50), ("top_keywords", Json.null),
        ("missing_or_weak_keywords", Json.arr []), ("suggested_resume_edits", Json.str "x")] ≠
      .ok ⟨50, [], [], "x"⟩ := by
  constructor
  · rfl
  · decide

/-- C7 amended: when all four required keys are present and `match_score`
coerces, but one of `top_keywords` / `missing_or_weak_keywords` /
`suggested_resume_edits` has a `null` value, the handler raises an
unguarded pydantic `ValidationError` (it does not treat `null` as an empty
list or empty string, and it does not return a result). -/
theorem claim_C7 (data : List (String × Json)) (v : Json) (q : ℚ)
    (hck : checkRequiredKeys data = none)
    (hms : jlookup data "match_score" = some v)
    (hq : pyFloat v = .ok q)
    (hnull : jlookup data "top_keywords" = some Json.null ∨
      jlookup data "missing_or_weak_keywords" = some Json.null ∨
      jlookup data "suggested_resume_edits" = some Json.null) :
    score_resume_fromData data = .raised .validationError := by
  simp only [score_resume_fromData, hck, hms, hq]
  rcases hnull with h | h | h
  · simp only [h]
    rfl
  · simp only [h]
    cases validateStrList ((jlookup data "top_keywords").getD (Json.arr [])) <;> rfl
  · simp only [h]
    cases validateStrList ((jlookup data "top_keywords").getD (Json.arr [])) <;>
      cases validateStrList ((jlookup data "missing_or_weak_keywords").getD (Json.arr [])) <;>
        rfl

theorem claim_C7_witness :
    score_resume_fromData [("match_score", Json.num 50), ("top_keywords", Json.arr []),
        ("missing_or_weak_keywords", Json.null), ("suggested_resume_edits", Json.str "x")] =
      .raised .validationError :=
  claim_C7 _ (Json.num 50) 50 rfl rfl rfl (Or.inr (Or.inl rfl))

/-- C9: there is a gateway mapping with all four required keys (here with
`match_score = "high"`) on which the `float(...)` coercion raises an
unguarded `ValueError` — none of the handler's typed `HTTPException`s —
so the coercion step is not a total function. -/
theorem claim_C9 :
    checkRequiredKeys [("match_score", Json.str "high"), ("top_keywords", Json.arr []),
        ("missing_or_weak_keywords", Json.arr []), ("suggested_resume_edits", Json.str "")] =
      none ∧
    score_resume_fromData [("match_score", Json.str "high"), ("top_keywords", Json.arr []),
        ("missing_or_weak_keywords", Json.arr []), ("suggested_resume_edits", Json.str "")] =
      .raised .valueError ∧
    (score_resume_fromData [("match_score", Json.str "high"), ("top_keywords", Json.arr []),
        ("missing_or_weak_keywords", Json.arr []),
        ("suggested_resume_edits", Json.str "")]).isHttpError = false := by
  exact ⟨rfl, rfl, rfl⟩

/-- C3: whenever the text extracted from the provider response is not
parseable as JSON, `call_openai_for_json` fails with HTTP 500 and the fixed
invalid-JSON message, and does not return any (even incomplete) result. -/
theorem claim_C3 (r : ProviderResponse)
    (h : jsonLoads (extractText r) = none) :
    call_openai_for_json (.success r) =
      .error ⟨500, "OpenAI did not return valid JSON. Check the prompt or response."⟩ ∧
    ∀ v, call_openai_for_json (.success r) ≠ .ok v := by
  constructor
  · simp only [call_openai_for_json, h]
  · intro v hv
    simp only [call_openai_for_json, h] at hv
    exact Except.noConfusion hv

theorem claim_C3_witness :
    jsonLoads (extractText ⟨some "not json", ""⟩) = none ∧
    call_openai_for_json (.success ⟨some "not json", ""⟩) =
      .error ⟨500, "OpenAI did not return valid JSON. Check the prompt or response."⟩ :=
  ⟨rfl, (claim_C3 ⟨some "not json", ""⟩ rfl).1⟩

/-- C4 as written is false: `call_openai_for_json` can fully succeed with a
parsed JSON value that is not a string-keyed mapping.  Concretely, when the
extracted provider text is `"3"`, `json.loads` succeeds with the number 3
and the function returns it — a successful outcome outside the claimed
mapping-or-typed-error dichotomy. -/
theorem claim_C4_counterexample :
    Except.map Json.isObj (call_openai_for_json (.success ⟨some "3", ""⟩)) =
      .ok false := by rfl

/-- C4 amended: every call either fully succeeds returning the parsed JSON
value — which the source never checks to be a mapping, so it may be any
JSON value — or fully fails with exactly one of the two typed errors: the
fixed invalid-JSON message on a JSON syntax failure, or the gateway message
carrying the underlying error's text on any transport failure.  No other
outcome exists. -/
theorem claim_C4 (pr : ProviderResult) :
    (∃ v, call_openai_for_json pr = .ok v) ∨
    call_openai_for_json pr =
      .error ⟨500, "OpenAI did not return valid JSON. Check the prompt or response."⟩ ∨
    (∃ m, call_openai_for_json pr = .error ⟨500, "Error while calling OpenAI: " ++ m⟩) := by
  cases pr with
  | failure msg => exact Or.inr (Or.inr ⟨msg, rfl⟩)
  | success r =>
    cases h : jsonLoads (extractText r) with
    | none => exact Or.inr (Or.inl (by simp only [call_openai_for_json, h]))
    | some v => exact Or.inl ⟨v, by simp only [call_openai_for_json, h]⟩

/-- C8: the cover-letter handler fails with the server error naming
`cover_letter_text` exactly when that key is absent from the gateway
mapping; and when the key holds a string, an absent or `null` `summary`
comes through as a no-summary result. -/
theorem claim_C8 (data : List (String × Json)) :
    (generate_cover_letter_fromData data =
        .httpError 500 "Missing 'cover_letter_text' in OpenAI response" ↔
      jlookup data "cover_letter_text" = none) ∧
    (∀ s : String, jlookup data "cover_letter_text" = some (Json.str s) →
      (jlookup data "summary" = none ∨ jlookup data "summary" = some Json.null) →
      generate_cover_letter_fromData data = .ok ⟨s, none⟩) := by
  constructor
  · constructor
    · intro h
      cases hc : jlookup data "cover_letter_text" with
      | none => rfl
      | some v =>
        exfalso
        simp only [generate_cover_letter_fromData, hc] at h
        cases hv : validateStr v with
        | none =>
          simp only [hv] at h
          exact CLOutcome.noConfusion h
        | some text =>
          simp only [hv] at h
          cases hs : jlookup data "summary" with
          | none =>
            simp only [hs] at h
            exact CLOutcome.noConfusion h
          | some sv =>
            simp only [hs] at h
            cases hos : validateOptStr sv <;> simp only [hos] at h <;>
              exact CLOutcome.noConfusion h
    · intro h
      simp only [generate_cover_letter_fromData, h]
  · intro s hs hsum
    rcases hsum with h | h <;>
      simp only [generate_cover_letter_fromData, hs, validateStr, h, validateOptStr]

theorem claim_C8_witness :
    generate_cover_letter_fromData [("cover_letter_text", Json.str "hi"),
        ("summary", Json.null)] = .ok ⟨"hi", none⟩ ∧
    generate_cover_letter_fromData [("summary", Json.str "s")] =
      .httpError 500 "Missing 'cover_letter_text' in OpenAI response" :=
  ⟨(claim_C8 _).2 "hi" rfl (Or.inr rfl),
   (claim_C8 [("summary", Json.str "s")]).1.mpr rfl⟩

/-- C5: when the request's `extras` field is omitted, the handler renders
the prompt with the default `ExtrasInfo`: the tone line reads
`- Tone: professional but conversational`, the length line reads
`- Length: 3 paragraphs`, and the focus-points clause is empty (the
focus-points line is a bare `- `). -/
theorem claim_C5 (job : JobInfo) (resume : ResumeInfo) :
    effectiveExtras none = ExtrasInfo.default ∧
    focusPointsText (effectiveExtras none) = "" ∧
    strContains (generate_cover_letter_prompt ⟨job, resume, none⟩)
      "\n- Tone: professional but conversational\n- Length: 3 paragraphs\n- \n" := by
  refine ⟨rfl, rfl, ?_⟩
  refine ⟨clP1 ++ job.job_description ++ clP2 ++ job.company ++ clP3 ++ job.role_title ++
      clP4 ++ locationOrNA job.location ++ clP5 ++ resume.text ++ clP6,
    "\nThe cover letter should highlight the candidate's most relevant experience and skills for this specific role and company. It should sound natural and professional.\n\nRespond in valid JSON only, with this structure:\n\n\x7b\n  \"cover_letter_text\": \"full cover letter text here\",\n  \"summary\": \"one sentence summary of why this candidate is a strong fit\"\n\x7d\n",
    ?_⟩
  simp only [generate_cover_letter_prompt, coverLetterPrompt, effectiveExtras,
    Option.getD_none, ExtrasInfo.default, pyStrOpt, focusPointsText,
    String.append_assoc]
  congr 11

/-- C6: the focus-points clause of the rendered cover-letter prompt equals
`"Focus on these points: "` followed by the comma-joined list, in order,
when `focus_points` is a non-empty list, and is the empty string when it is
absent/`null` (i.e. `None`) or empty; the clause appears verbatim in the
prompt on the `- ` line. -/
theorem claim_C6 (job : JobInfo) (resume : ResumeInfo) (extras : ExtrasInfo) :
    (∀ l : List String, extras.focus_points = some l → l ≠ [] →
      focusPointsText extras = "Focus on these points: " ++ String.intercalate ", " l) ∧
    ((extras.focus_points = none ∨ extras.focus_points = some []) →
      focusPointsText extras = "") ∧
    strContains (generate_cover_letter_prompt ⟨job, resume, some extras⟩)
      ("\n- " ++ focusPointsText extras ++ "\n") := by
  refine ⟨?_, ?_, ?_⟩
  · intro l hl hne
    cases l with
    | nil => exact absurd rfl hne
    | cons p ps => simp [focusPointsText, hl]
  · intro h
    rcases h with h | h <;> simp [focusPointsText, h]
  · refine ⟨clP1 ++ job.job_description ++ clP2 ++ job.company ++ clP3 ++ job.role_title ++
        clP4 ++ locationOrNA job.location ++ clP5 ++ resume.text ++ clP6 ++
        clP7 ++ pyStrOpt extras.tone ++ clP8 ++ pyStrOpt extras.length,
      "\nThe cover letter should highlight the candidate's most relevant experience and skills for this specific role and company. It should sound natural and professional.\n\nRespond in valid JSON only, with this structure:\n\n\x7b\n  \"cover_letter_text\": \"full cover letter text here\",\n  \"summary\": \"one sentence summary of why this candidate is a strong fit\"\n\x7d\n",
      ?_⟩
    simp only [generate_cover_letter_prompt, coverLetterPrompt, effectiveExtras,
      Option.getD_some, String.append_assoc]
    congr 15

theorem claim_C6_witness :
    focusPointsText ⟨some "t", some "l", some ["a", "b", "c"]⟩ =
      "Focus on these points: a, b, c" ∧
    focusPointsText ⟨some "t", some "l", some []⟩ = "" ∧
    focusPointsText ⟨some "t", some "l", none⟩ = "" := by
  refine ⟨?_, ?_, ?_⟩
  · have h := (claim_C6 ⟨"Acme", "Engineer", none, "Python, SQL", none⟩ ⟨"A", "5 years Python"⟩
      ⟨some "t", some "l", some ["a", "b", "c"]⟩).1 ["a", "b", "c"] rfl (by simp)
    simpa using h
  · exact (claim_C6 ⟨"Acme", "Engineer", none, "Python, SQL", none⟩ ⟨"A", "5 years Python"⟩
      ⟨some "t", some "l", some []⟩).2.1 (Or.inr rfl)
  · exact (claim_C6 ⟨"Acme", "Engineer", none, "Python, SQL", none⟩ ⟨"A", "5 years Python"⟩
      ⟨some "t", some "l", none⟩).2.1 (Or.inl rfl)

lemma extrasInfoFromJson_fields (kvs : List (String × Json)) (e : ExtrasInfo)
    (he : extrasInfoFromJson kvs = some e) :
    parseOptStrField kvs "tone" (some "professional but conversational") = some e.tone ∧
    parseOptStrField kvs "length" (some "3 paragraphs") = some e.length ∧
    parseFocusField kvs = some e.focus_points := by
  cases ht : parseOptStrField kvs "tone" (some "professional but conversational") with
  | none => simp [extrasInfoFromJson, ht] at he
  | some t =>
    cases hl : parseOptStrField kvs "length" (some "3 paragraphs") with
    | none => simp [extrasInfoFromJson, ht, hl] at he
    | some l =>
      cases hf : parseFocusField kvs with
      | none => simp [extrasInfoFromJson, ht, hl, hf] at he
      | some f =>
        have hE : e = ⟨t, l, f⟩ := by
          simp [extrasInfoFromJson, ht, hl, hf] at he
          exact he.symm
        subst hE
        exact ⟨rfl, rfl, rfl⟩

/-- C10: when the request's `extras` object is present with an explicitly
`null` `tone` (resp. `length`) field, the default is not substituted: the
parsed field is `None` and the rendered prompt's line reads `- Tone: None`
(resp. `- Length: None`).  The defaults apply to omitted fields only. -/
theorem claim_C10 (job : JobInfo) (resume : ResumeInfo)
    (kvs : List (String × Json)) (e : ExtrasInfo)
    (he : extrasInfoFromJson kvs = some e) :
    (jlookup kvs "tone" = some Json.null →
      e.tone = none ∧
      strContains (generate_cover_letter_prompt ⟨job, resume, some e⟩) "\n- Tone: None\n") ∧
    (jlookup kvs "length" = some Json.null →
      e.length = none ∧
      strContains (generate_cover_letter_prompt ⟨job, resume, some e⟩) "\n- Length: None\n") ∧
    (jlookup kvs "tone" = none → e.tone = some "professional but conversational") := by
  obtain ⟨ht, hl, _⟩ := extrasInfoFromJson_fields kvs e he
  refine ⟨?_, ?_, ?_⟩
  · intro hnull
    have htone : e.tone = none := by
      rw [parseOptStrField, hnull] at ht
      exact (Option.some_inj.mp ht).symm
    refine ⟨htone, ?_⟩
    refine ⟨clP1 ++ job.job_description ++ clP2 ++ job.company ++ clP3 ++ job.role_title ++
        clP4 ++ locationOrNA job.location ++ clP5 ++ resume.text ++ clP6,
      "- Length: " ++ pyStrOpt e.length ++ clP9 ++ focusPointsText e ++ clP10, ?_⟩
    simp only [generate_cover_letter_prompt, coverLetterPrompt, effectiveExtras,
      Option.getD_some, htone, pyStrOpt, String.append_assoc]
    congr 11
  · intro hnull
    have hlen : e.length = none := by
      rw [parseOptStrField, hnull] at hl
      exact (Option.some_inj.mp hl).symm
    refine ⟨hlen, ?_⟩
    refine ⟨clP1 ++ job.job_description ++ clP2 ++ job.company ++ clP3 ++ job.role_title ++
        clP4 ++ locationOrNA job.location ++ clP5 ++ resume.text ++ clP6 ++
        clP7 ++ pyStrOpt e.tone,
      "- " ++ focusPointsText e ++ clP10, ?_⟩
    simp only [generate_cover_letter_prompt, coverLetterPrompt, effectiveExtras,
      Option.getD_some, hlen, pyStrOpt, String.append_assoc]
    congr 13
  · intro habs
    rw [parseOptStrField, habs] at ht
    exact (Option.some_inj.mp ht).symm

theorem claim_C10_witness :
    extrasInfoFromJson [("tone", Json.null), ("length", Json.null)] =
      some ⟨none, none, none⟩ ∧
    strContains (generate_cover_letter_prompt
      ⟨⟨"Acme", "Engineer", none, "Python, SQL", none⟩, ⟨"A", "5 years Python"⟩,
        some ⟨none, none, none⟩⟩) "\n- Tone: None\n" ∧
    strContains (generate_cover_letter_prompt
      ⟨⟨"Acme", "Engineer", none, "Python, SQL", none⟩, ⟨"A", "5 years Python"⟩,
        some ⟨none, none, none⟩⟩) "\n- Length: None\n" ∧
    ExtrasInfo.default.tone = some "professional but conversational" := by
  refine ⟨rfl, ?_, ?_, ?_⟩
  · exact ((claim_C10 ⟨"Acme", "Engineer", none, "Python, SQL", none⟩ ⟨"A", "5 years Python"⟩
      [("tone", Json.null), ("length", Json.null)] ⟨none, none, none⟩ rfl).1 rfl).2
  · exact ((claim_C10 ⟨"Acme", "Engineer", none, "Python, SQL", none⟩ ⟨"A", "5 years Python"⟩
      [("tone", Json.null), ("length", Json.null)] ⟨none, none, none⟩ rfl).2.1 rfl).2
  · exact (claim_C10 ⟨"Acme", "Engineer", none, "Python, SQL", none⟩ ⟨"A", "5 years Python"⟩
      [] ExtrasInfo.default rfl).2.2 rfl
